import Mathlib

/-!
Shallow embedding of `scripts/pipeline_manager.py` (the decision engine of
the pipeline-manager repository): metric parsing, gate evaluation, the remote
policy-gate resolution rule, the gate-consultation loop, the decision
executor (file moves and incident records) and the run summary.

Numbers are modelled as rationals (`ℚ`); Python `float()` string conversion
is modelled by a decimal parser (`pyFloat?`) covering plain decimal notation
with optional sign, fraction part and exponent.  Filesystem and network
effects are modelled explicitly: the policy-gate endpoint is an oracle
`Decision → Except String JsonObj` (an `.error` covers network failure,
non-2xx HTTP status and invalid JSON, each of which `post_policy_gate`
raises as a tagged exception), and the executor returns the list of moves
and the list of incident files it would perform/write.
-/

namespace PipelineManager

/-- Python `\s` / `str.strip` whitespace characters (ASCII range). -/
def isPySpace (c : Char) : Bool :=
  c = ' ' || c = '\t' || c = '\n' || c = '\r' || c = '\x0b' || c = '\x0c'

/-- Python `str.strip()`: drop leading and trailing whitespace. -/
def pyStrip (s : String) : String :=
  ⟨((s.toList.dropWhile isPySpace).reverse.dropWhile isPySpace).reverse⟩

/-- Python `str.lower()` (ASCII). -/
def pyLower (s : String) : String := ⟨s.toList.map Char.toLower⟩

def isDigitCh (c : Char) : Bool := 48 ≤ c.toNat && c.toNat ≤ 57

def digitsToNat (ds : List Char) : ℕ :=
  ds.foldl (fun a c => 10 * a + (c.toNat - 48)) 0

/-- Exponent suffix of a float literal: `e`/`E`, optional sign, digits.
Returns the signed exponent, or `none` when malformed; `some 0` for an
absent exponent (empty input). -/
def parseExp (cs : List Char) : Option ℤ :=
  match cs with
  | [] => some 0
  | e :: rest =>
    if e = 'e' || e = 'E' then
      let (sgn, ds) : ℤ × List Char :=
        match rest with
        | '+' :: r => (1, r)
        | '-' :: r => (-1, r)
        | r => (1, r)
      if ds ≠ [] && ds.all isDigitCh then some (sgn * digitsToNat ds) else none
    else none

/-- Model of Python `float(str)` on decimal notation: optional surrounding
whitespace, optional sign, integer digits and/or a fraction part, optional
exponent.  (`inf`/`nan`/underscore separators are outside the model.) -/
def pyFloat? (s : String) : Option ℚ :=
  let cs := (pyStrip s).toList
  let (sgn, body) : ℚ × List Char :=
    match cs with
    | '+' :: r => (1, r)
    | '-' :: r => (-1, r)
    | r => (1, r)
  let intPart := body.takeWhile isDigitCh
  let afterInt := body.dropWhile isDigitCh
  let core : Option (ℚ × List Char) :=
    match afterInt with
    | '.' :: afterDot =>
      let fracPart := afterDot.takeWhile isDigitCh
      let rest := afterDot.dropWhile isDigitCh
      if intPart = [] && fracPart = [] then none
      else some ((digitsToNat intPart : ℚ) +
        (digitsToNat fracPart : ℚ) / (10 ^ fracPart.length), rest)
    | rest =>
      if intPart = [] then none else some ((digitsToNat intPart : ℚ), rest)
  match core with
  | none => none
  | some (mag, rest) =>
    match parseExp rest with
    | none => none
    | some e =>
      if 0 ≤ e then some (sgn * mag * 10 ^ e.toNat)
      else some (sgn * mag / 10 ^ (-e).toNat)

/-- Model of `parse_number` from `pipeline_manager.py`: strip whitespace and `%`,
convert with `float()`; unparsable input yields `none`.  When
`percentOrRatioMode` is off the converted value is returned as is; otherwise
a `%` in the original token, or a value above `1.0`, divides by 100. -/
def percentStripped (val : String) : String :=
  ⟨(pyStrip val).toList.filter (fun c => c ≠ '%')⟩

def parse_number (val : String) (percentOrRatioMode : Bool := true) : Option ℚ :=
  match pyFloat? (percentStripped val) with
  | none => none
  | some num =>
    if ¬percentOrRatioMode then some num
    else if val.toList.contains '%' then some (num / 100)
    else if num > 1 then some (num / 100)
    else some num


/-! ### Metric parser (`parse_file`)

The Python code extracts keys with `re.search(r'(?im)^\s*key\s*:\s*(CAP)', text)`
where `CAP` is `\S+` or `[^\n]+`.  With the multiline flag, `^` anchors at the
start of the string and after every newline, so the search tries each
line-start position in order; `\s` may cross newlines.  A position where the
capture would be empty fails and the search moves on.  (When the tail after
the colon is whitespace containing a blank, Python's `[^\n]+` can still
capture a whitespace-only group by backtracking; every consumer of such a
group strips it or fails `float()`, so returning `none` there is
observationally equal.) -/

/-- Suffixes of `cs` that start right after a newline: the candidate
positions (other than position 0) where `^` matches in multiline mode. -/
def suffixesAfterNewlines : List Char → List (List Char)
  | [] => []
  | c :: rest =>
    if c = '\n' then rest :: suffixesAfterNewlines rest
    else suffixesAfterNewlines rest

/-- Case-insensitively strip `key` from the head of `cs`. -/
def stripKeyCI : List Char → List Char → Option (List Char)
  | [], cs => some cs
  | _ :: _, [] => none
  | k :: ks, c :: cs =>
    if k.toLower = c.toLower then stripKeyCI ks cs else none

/-- Try `\s* key \s* :` at one position; returns the text after the colon. -/
def matchKeyColon (key : List Char) (cs : List Char) : Option (List Char) :=
  match stripKeyCI key (cs.dropWhile isPySpace) with
  | none => none
  | some r =>
    match r.dropWhile isPySpace with
    | ':' :: rest => some rest
    | _ => none

/-- First match of `^\s*key\s*:\s*(\S+)` (or `([^\n]+)` when `wholeLine`),
over all line-start positions. -/
def searchKeyVal (key : String) (wholeLine : Bool) (text : String) : Option String :=
  (text.toList :: suffixesAfterNewlines text.toList).findSome? fun cs =>
    match matchKeyColon key.toList cs with
    | none => none
    | some afterColon =>
      let v := (afterColon.dropWhile isPySpace).takeWhile
        (fun c => if wholeLine then c ≠ '\n' else ¬ isPySpace c)
      if v = [] then none else some ⟨v⟩

/-- Presence test `bool(re.search(r'(?im)^\s*key\s*:', text))`. -/
def searchKeyPresent (key : String) (text : String) : Bool :=
  (text.toList :: suffixesAfterNewlines text.toList).any fun cs =>
    (matchKeyColon key.toList cs).isSome

/-- The optional-numeric KPI mapping extracted from a file. -/
structure Kpi where
  success_rate : Option ℚ
  drift : Option ℚ
  reproducibility : Option ℚ
  revenue_usdc : Option ℚ
  token_cost_usdc : Option ℚ
deriving Repr, DecidableEq

/-- Result of `parse_file`. -/
structure ParsedMeta where
  has_approval : Bool
  has_approval_integrity : Bool
  has_evidence : Bool
  has_eval : Bool
  has_learn : Bool
  kpi : Kpi
deriving Repr, DecidableEq

/-- Python test `m is not None and m.group(1).strip() != ''` for a captured field. -/
def presentNonEmpty (v : Option String) : Bool :=
  match v with
  | none => false
  | some s => pyStrip s ≠ ""

/-- The inner `pick(key)` of `parse_file`: capture `([^\n]+)` and `parse_number` it. -/
def pick (key : String) (percentOrRatioMode : Bool) (text : String) : Option ℚ :=
  match searchKeyVal key true text with
  | none => none
  | some v => parse_number v percentOrRatioMode

/-- Model of `parse_file` from `pipeline_manager.py` (pure part: the file's text). -/
def parse_file (text : String) : ParsedMeta :=
  let approval := searchKeyVal "approval_id" false text
  let approved_by := searchKeyVal "approved_by" false text
  let approved_at := searchKeyVal "approved_at" true text
  let approval_reason := searchKeyVal "approval_reason" true text
  let has_approval :=
    match approval with
    | none => false
    | some v => ¬ (["none", "null", "na"].contains (pyLower (pyStrip v)))
  let has_approval_integrity :=
    has_approval && presentNonEmpty approved_by &&
      presentNonEmpty approved_at && presentNonEmpty approval_reason
  { has_approval := has_approval
    has_approval_integrity := has_approval_integrity
    has_evidence := searchKeyPresent "evidence" text
    has_eval := searchKeyPresent "eval" text
    has_learn := searchKeyPresent "learn" text
    kpi :=
      { success_rate := pick "success_rate" true text
        drift := pick "drift" true text
        reproducibility := pick "reproducibility" true text
        revenue_usdc := pick "revenue_usdc" false text
        token_cost_usdc := pick "token_cost_usdc" false text } }

/-- The PASS sample seeded by `seed_samples`, used as a concrete input. -/
def passSampleText : String :=
  "# PASS sample\napproval_id: APR-1001\napproved_by: owner_min\n" ++
  "approved_at: 2026-02-28T00:00:00Z\napproval_reason: approved_for_pipeline_pass_sample\n" ++
  "EVIDENCE: command logs attached\nEVAL: goal met\nLEARN: keep this format\n" ++
  "success_rate: 95%\ndrift: 3%\nreproducibility: 100%\n" ++
  "revenue_usdc: 3.0\ntoken_cost_usdc: 0.5\n"



/-! ### Gate evaluator (the per-file loop body of `main`, lines 256-311) -/

/-- The KPI dict after the economics block of `main` filled in the resolved
revenue/token-cost and `margin_rate`. -/
structure FinalKpi where
  success_rate : Option ℚ
  drift : Option ℚ
  reproducibility : Option ℚ
  revenue_usdc : ℚ
  token_cost_usdc : ℚ
  margin_rate : Option ℚ
deriving Repr, DecidableEq

/-- One per ProposalFile; `action` is a string because the dataclass
documents `promote|demote|hold`. -/
structure Decision where
  file : String
  action : String
  reasons : List String
  warnings : List String
  kpi : FinalKpi
  age_hours : ℚ
deriving Repr, DecidableEq

/-- The threshold configuration of `main` (argparse flags).  The filename
rule `re.match(args.require_prefix, name)` is carried as the predicate
`nameRuleOk`; `defaultNameRuleOk` below is the default pattern. -/
structure Config where
  sla_hours : ℚ
  min_success : ℚ
  max_drift : ℚ
  min_repro : ℚ
  default_revenue_usdc : ℚ
  default_token_cost_usdc : ℚ
  min_margin_rate : ℚ
  nameRuleOk : String → Bool

/-- The default `--require-prefix` pattern: the name must start with
`PRJ-`, `IDEA-` or `LOG-`. -/
def defaultNameRuleOk (name : String) : Bool :=
  ["PRJ-", "IDEA-", "LOG-"].any fun p =>
    name.toList.take p.length = p.toList

/-- The default thresholds of the argparse flags. -/
def defaultConfig : Config :=
  { sla_hours := 24, min_success := 9 / 10, max_drift := 1 / 10,
    min_repro := 9 / 10, default_revenue_usdc := 0,
    default_token_cost_usdc := 0, min_margin_rate := 0,
    nameRuleOk := defaultNameRuleOk }

/-- The SLA reason code `f'sla_exceeded>-N-h'` (numeral formatting abstracted to
`toString` on `ℚ`). -/
def slaCode (slaHours : ℚ) : String :=
  "sla_exceeded>" ++ toString slaHours ++ "h"

/-- Python test `kpi[k] is None or kpi[k] < m`. -/
def absentOrBelow (v : Option ℚ) (m : ℚ) : Bool :=
  match v with
  | none => true
  | some x => x < m

/-- Python test `kpi[k] is None or kpi[k] > m`. -/
def absentOrAbove (v : Option ℚ) (m : ℚ) : Bool :=
  match v with
  | none => true
  | some x => x > m

/-- Output of the economics block of `main` (lines 290-304). -/
structure EconOut where
  revenue : ℚ
  token_cost : ℚ
  reasons : List String
  warnings : List String
  margin_rate : Option ℚ
deriving Repr, DecidableEq

/-- The economics block: resolve absent revenue/token-cost to the
configured defaults, then negative-value reason / zero-revenue guard /
margin computation with the advisory warning. -/
def econBlock (cfg : Config) (kpi : Kpi) : EconOut :=
  let revenue := kpi.revenue_usdc.getD cfg.default_revenue_usdc
  let token_cost := kpi.token_cost_usdc.getD cfg.default_token_cost_usdc
  if revenue < 0 ∨ token_cost < 0 then
    ⟨revenue, token_cost, ["econ_invalid_negative_values"], [], none⟩
  else if revenue = 0 then
    ⟨revenue, token_cost, [], [], none⟩
  else
    let margin_rate := (revenue - token_cost) / revenue
    ⟨revenue, token_cost, [],
     if margin_rate < cfg.min_margin_rate then ["kpi_margin_rate_fail"] else [],
     some margin_rate⟩

/-- The loop body of `main` for one file: every gate is evaluated (the
sequential `reasons.append` calls become one concatenation in source
order), then the economics block, then `action = demote iff reasons`. -/
def evaluate (cfg : Config) (name path : String) (age_hours : ℚ)
    (parsed : ParsedMeta) : Decision :=
  let kpi := parsed.kpi
  let econ := econBlock cfg kpi
  let reasons : List String :=
    (if age_hours > cfg.sla_hours then [slaCode cfg.sla_hours] else []) ++
    (if cfg.nameRuleOk name then [] else ["prefix_rule_fail"]) ++
    (if parsed.has_approval then [] else ["missing_approval_id"]) ++
    (if parsed.has_approval_integrity then [] else ["approval_integrity_fail"]) ++
    (if parsed.has_evidence then [] else ["missing_evidence"]) ++
    (if parsed.has_eval then [] else ["missing_eval"]) ++
    (if parsed.has_learn then [] else ["missing_learn"]) ++
    (if absentOrBelow kpi.success_rate cfg.min_success then ["kpi_success_rate_fail"] else []) ++
    (if absentOrAbove kpi.drift cfg.max_drift then ["kpi_drift_fail"] else []) ++
    (if absentOrBelow kpi.reproducibility cfg.min_repro then ["kpi_reproducibility_fail"] else []) ++
    econ.reasons
  { file := path
    action := if reasons ≠ [] then "demote" else "promote"
    reasons := reasons
    warnings := econ.warnings
    kpi :=
      { success_rate := kpi.success_rate, drift := kpi.drift,
        reproducibility := kpi.reproducibility, revenue_usdc := econ.revenue,
        token_cost_usdc := econ.token_cost, margin_rate := econ.margin_rate }
    age_hours := age_hours }

/-! ### Policy-gate client (`resolve_gate_action`) and the real-run loop -/

/-- JSON values, as decoded by `json.loads`. -/
inductive Json where
  | null : Json
  | bool : Bool → Json
  | str : String → Json
  | num : ℚ → Json
  | arr : List Json → Json
  | obj : List (String × Json) → Json

/-- A decoded JSON object body (`post_policy_gate` rejects non-objects). -/
def JsonObj := List (String × Json)

/-- Python `dict.get(k)`: `some` value or `none` when the key is absent. -/
def jget (g : JsonObj) (k : String) : Option Json := List.lookup k g

/-- Python test `gate_result.get(k) is False`. -/
def isJsonFalse (v : Option Json) : Bool :=
  match v with
  | some (Json.bool false) => true
  | _ => false

/-- Python test `gate_result.get(k) is True`. -/
def isJsonTrue (v : Option Json) : Bool :=
  match v with
  | some (Json.bool true) => true
  | _ => false

/-- Python test `isinstance(gate_action, str) and gate_action in the set of the two action strings`. -/
def usableGateAction (v : Option Json) : Option String :=
  match v with
  | some (Json.str s) => if s = "promote" || s = "demote" then some s else none
  | _ => none

/-- Model of `resolve_gate_action` from `pipeline_manager.py`. -/
def resolve_gate_action (local_action : String) (gate_result : JsonObj) :
    Except String String :=
  if isJsonFalse (jget gate_result "allow") then Except.ok "demote"
  else
    match usableGateAction (jget gate_result "action") with
    | some gate_action => Except.ok gate_action
    | none =>
      if isJsonTrue (jget gate_result "allow") then Except.ok local_action
      else Except.error "policy_gate_missing_allow_or_action"

/-- One iteration of the real-run gate loop (lines 315-325): consult the
oracle (`post_policy_gate`, whose network/HTTP/JSON failures are the
oracle's `.error`), resolve, and on a changed action append the
`policy_gate_action_override` warning and overwrite the action. -/
def applyGate (d : Decision) (resp : Except String JsonObj) :
    Except String Decision :=
  match resp with
  | Except.error e => Except.error e
  | Except.ok gate_result =>
    match resolve_gate_action d.action gate_result with
    | Except.error e => Except.error e
    | Except.ok gated_action =>
      if gated_action ≠ d.action then
        Except.ok { d with
          warnings := d.warnings ++ ["policy_gate_action_override"],
          action := gated_action }
      else Except.ok d

/-- The whole gate loop: any exception in an iteration aborts it (the
caller exits with status 3). -/
def gateLoop (oracle : Decision → Except String JsonObj) :
    List Decision → Except String (List Decision)
  | [] => Except.ok []
  | d :: ds =>
    match applyGate d (oracle d) with
    | Except.error e => Except.error e
    | Except.ok d' =>
      match gateLoop oracle ds with
      | Except.error e => Except.error e
      | Except.ok ds' => Except.ok (d' :: ds')

/-! ### Decision executor and run summary -/

/-- Python `Path(p).name`: the text after the last slash. -/
def pathBaseName (p : String) : String :=
  ((p.splitOn "/").getLast? ).getD p

/-- Python `Path(p).stem`: the base name without its final suffix (`pathlib` keeps
the whole name when the only dot is leading or trailing). -/
def pathStem (p : String) : String :=
  let n := pathBaseName p
  let cs := n.toList
  match (cs.reverse).findIdx? (fun c => c = '.') with
  | none => n
  | some j =>
    let i := cs.length - 1 - j
    if 0 < i ∧ i < cs.length - 1 then ⟨cs.take i⟩ else n

/-- Destination of a decision's file move (line 336). -/
def targetOf (applied demoted : String) (d : Decision) : String :=
  (if d.action = "promote" then applied else demoted) ++ "/" ++ pathBaseName d.file

/-- The name `write_incident` gives an incident file; `stamp` is the
`%Y%m%d-%H%M%S` timestamp taken at write time. -/
def incidentPath (incidentsDir stamp : String) (d : Decision) : String :=
  incidentsDir ++ "/INC-" ++ stamp ++ "-" ++ pathStem d.file ++ ".md"

/-- The move-and-incident loop (lines 335-340): real runs move every file
and write one incident per decision with non-empty reasons; dry runs
perform neither effect (`write_incident` is still called but skips the
write).  Returns (moves performed, incident files written). -/
def moveLoop (dry_run : Bool) (applied demoted incidentsDir stamp : String)
    (ds : List Decision) : List (String × String) × List String :=
  ((if dry_run then [] else ds.map fun d => (d.file, targetOf applied demoted d)),
   (if dry_run then [] else
     (ds.filter fun d => d.reasons ≠ []).map (incidentPath incidentsDir stamp)))

structure Counts where
  total : ℕ
  promote : ℕ
  demote : ℕ
  warn : ℕ
deriving Repr, DecidableEq

structure Economics where
  total_revenue_usdc : ℚ
  total_token_cost_usdc : ℚ
  total_net_margin_usdc : ℚ
  avg_margin_rate : Option ℚ
  min_margin_rate_advisory : ℚ
deriving Repr, DecidableEq

/-- The JSON run summary of `main` (lines 342-368), minus the two
wall-clock timestamp fields. -/
structure Summary where
  dry_run : Bool
  counts : Counts
  economics : Economics
  margin_warning_count : ℕ
  margin_warning_files : List String
  decisions : List Decision
deriving Repr, DecidableEq

def buildSummary (dry_run : Bool) (min_margin_rate : ℚ)
    (ds : List Decision) : Summary :=
  let margins := ds.filterMap fun d => d.kpi.margin_rate
  let total_revenue := (ds.map fun d => d.kpi.revenue_usdc).sum
  let total_token_cost := (ds.map fun d => d.kpi.token_cost_usdc).sum
  { dry_run := dry_run
    counts :=
      { total := ds.length
        promote := ds.countP fun d => d.action = "promote"
        demote := ds.countP fun d => d.action = "demote"
        warn := ds.countP fun d => d.warnings.length > 0 }
    economics :=
      { total_revenue_usdc := total_revenue
        total_token_cost_usdc := total_token_cost
        total_net_margin_usdc := total_revenue - total_token_cost
        avg_margin_rate :=
          if margins = [] then none else some (margins.sum / margins.length)
        min_margin_rate_advisory := min_margin_rate }
    margin_warning_count :=
      ds.countP fun d => d.warnings.contains "kpi_margin_rate_fail"
    margin_warning_files :=
      (ds.filter fun d => d.warnings.contains "kpi_margin_rate_fail").map
        fun d => pathBaseName d.file
    decisions := ds }

/-! ### Whole-run composition and startup checks -/

/-- The startup logic of `main` (lines 223-238): determines dry-run mode or
exits.  `--real-run` without `--confirm-real-run` exits with status 2;
a real run with a blank `--policy-gate-url` also exits with status 2. -/
def resolveRunMode (real_run confirm_real_run : Bool)
    (policy_gate_url : String) : Except ℕ Bool :=
  if real_run && confirm_real_run then
    if pyStrip policy_gate_url = "" then Except.error 2
    else Except.ok false
  else if real_run && !confirm_real_run then Except.error 2
  else Except.ok true

/-- Everything `main` does after the per-file evaluation loop: the gate
consultation loop (real runs only; any failure is `sys.exit(3)`, reached
before the move loop), then the move/incident loop and the summary.
A successful run's effects and outputs. -/
structure RunResult where
  moves : List (String × String)
  incidentsWritten : List String
  summary : Summary
  logFile : String
deriving Repr, DecidableEq

def runAfterEvaluation (dry_run : Bool)
    (oracle : Decision → Except String JsonObj)
    (applied demoted incidentsDir logDir stamp : String)
    (min_margin_rate : ℚ) (ds : List Decision) : Except ℕ RunResult :=
  let finish (ds' : List Decision) : RunResult :=
    let mi := moveLoop dry_run applied demoted incidentsDir stamp ds'
    { moves := mi.1
      incidentsWritten := mi.2
      summary := buildSummary dry_run min_margin_rate ds'
      logFile := logDir ++ "/pipeline_manager_" ++
        (if dry_run then "dryrun" else "run") ++ "_" ++ stamp ++ ".json" }
  if dry_run then Except.ok (finish ds)
  else
    match gateLoop oracle ds with
    | Except.error _ => Except.error 3
    | Except.ok ds' => Except.ok (finish ds')

/-- One inbox file as scanned by `main`: its name, age in hours, and text. -/
structure InboxFile where
  name : String
  age_hours : ℚ
  text : String

/-- The per-file evaluation loop over the (sorted) inbox listing. -/
def evaluateAll (cfg : Config) (inboxDir : String)
    (files : List InboxFile) : List Decision :=
  files.map fun f =>
    evaluate cfg f.name (inboxDir ++ "/" ++ f.name) f.age_hours
      (parse_file f.text)

/-- A full run from the inbox listing (after a successful startup check). -/
def runPipeline (cfg : Config) (dry_run : Bool)
    (oracle : Decision → Except String JsonObj)
    (inboxDir applied demoted incidentsDir logDir stamp : String)
    (files : List InboxFile) : Except ℕ RunResult :=
  runAfterEvaluation dry_run oracle applied demoted incidentsDir logDir stamp
    cfg.min_margin_rate (evaluateAll cfg inboxDir files)

/-- Every string the program prints on a successful run: the JSON summary's
string-valued fields and the trailing `log_file=` line. -/
def reportedStrings (r : RunResult) : List String :=
  r.logFile ::
    (r.summary.margin_warning_files ++
      r.summary.decisions.flatMap fun d =>
        d.file :: d.action :: (d.reasons ++ d.warnings))

/-! ### Helper lemmas -/

theorem isJsonFalse_iff (v : Option Json) :
    isJsonFalse v = true ↔ v = some (Json.bool false) := by
  cases v with
  | none => simp [isJsonFalse]
  | some j =>
    cases j with
    | bool b => cases b <;> simp [isJsonFalse]
    | null => simp [isJsonFalse]
    | str s => simp [isJsonFalse]
    | num q => simp [isJsonFalse]
    | arr l => simp [isJsonFalse]
    | obj l => simp [isJsonFalse]

theorem isJsonTrue_iff (v : Option Json) :
    isJsonTrue v = true ↔ v = some (Json.bool true) := by
  cases v with
  | none => simp [isJsonTrue]
  | some j =>
    cases j with
    | bool b => cases b <;> simp [isJsonTrue]
    | null => simp [isJsonTrue]
    | str s => simp [isJsonTrue]
    | num q => simp [isJsonTrue]
    | arr l => simp [isJsonTrue]
    | obj l => simp [isJsonTrue]

theorem evaluate_action_def (cfg : Config) (name path : String) (age : ℚ)
    (pm : ParsedMeta) :
    (evaluate cfg name path age pm).action =
      if (evaluate cfg name path age pm).reasons ≠ [] then "demote"
      else "promote" := by
  simp only [evaluate]

theorem evaluate_action_iff (cfg : Config) (name path : String) (age : ℚ)
    (pm : ParsedMeta) :
    (evaluate cfg name path age pm).action = "demote" ↔
      (evaluate cfg name path age pm).reasons ≠ [] := by
  rw [evaluate_action_def]
  by_cases h : (evaluate cfg name path age pm).reasons = [] <;>
    simp [h]

theorem applyGate_override_warning (d : Decision) (g : JsonObj)
    (d' : Decision) (hok : applyGate d (Except.ok g) = Except.ok d')
    (hchg : d'.action ≠ d.action) :
    d'.warnings = d.warnings ++ ["policy_gate_action_override"] := by
  have hok2 : (match resolve_gate_action d.action g with
      | Except.error e => (Except.error e : Except String Decision)
      | Except.ok gated_action =>
        if gated_action ≠ d.action then
          Except.ok { d with
            warnings := d.warnings ++ ["policy_gate_action_override"],
            action := gated_action }
        else Except.ok d) = Except.ok d' := hok
  cases hres : resolve_gate_action d.action g with
  | error e =>
    rw [hres] at hok2
    exact Except.noConfusion hok2
  | ok a =>
    rw [hres] at hok2
    simp only [ne_eq] at hok2
    by_cases ha : a = d.action
    · rw [if_neg (not_not_intro ha)] at hok2
      injection hok2 with h
      subst h
      exact absurd rfl hchg
    · rw [if_pos ha] at hok2
      injection hok2 with h
      subst h
      rfl

/-! ### Claims -/

/-- C1: locally, `action = "demote"` iff `reasons` is non-empty (the
assignment at lines 306-307 is the only local action change), and when the
remote resolution changes the action the `policy_gate_action_override`
warning is appended (lines 322-325). -/
theorem local_demote_iff_reasons_and_override_warns :
    (∀ (cfg : Config) (name path : String) (age : ℚ) (pm : ParsedMeta),
      (evaluate cfg name path age pm).action = "demote" ↔
        (evaluate cfg name path age pm).reasons ≠ []) ∧
    (∀ (d : Decision) (g : JsonObj) (d' : Decision),
      applyGate d (Except.ok g) = Except.ok d' → d'.action ≠ d.action →
        d'.warnings = d.warnings ++ ["policy_gate_action_override"]) :=
  ⟨evaluate_action_iff, applyGate_override_warning⟩

/-- A promoted local decision, as the witness's input. -/
def exPromoteDecision : Decision :=
  { file := "promoted/inbox/PRJ-DEMO_v1.md", action := "promote",
    reasons := [], warnings := [],
    kpi := { success_rate := some (19 / 20), drift := some (3 / 100),
             reproducibility := some 1, revenue_usdc := 3,
             token_cost_usdc := 1 / 2, margin_rate := some (5 / 6) },
    age_hours := 1 }

/-- The same decision after a `{"allow": false}` override. -/
def exOverriddenDecision : Decision :=
  { exPromoteDecision with
    action := "demote"
    warnings := ["policy_gate_action_override"] }

theorem local_demote_iff_reasons_and_override_warns_witness :
    ((evaluate defaultConfig "PRJ-PIPELINE-PASS_v1.md"
        "promoted/inbox/PRJ-PIPELINE-PASS_v1.md" 1
        (parse_file passSampleText)).action = "demote" ↔
      (evaluate defaultConfig "PRJ-PIPELINE-PASS_v1.md"
        "promoted/inbox/PRJ-PIPELINE-PASS_v1.md" 1
        (parse_file passSampleText)).reasons ≠ []) ∧
    exOverriddenDecision.warnings =
      exPromoteDecision.warnings ++ ["policy_gate_action_override"] :=
  ⟨local_demote_iff_reasons_and_override_warns.1 defaultConfig
      "PRJ-PIPELINE-PASS_v1.md" "promoted/inbox/PRJ-PIPELINE-PASS_v1.md" 1
      (parse_file passSampleText),
   local_demote_iff_reasons_and_override_warns.2 exPromoteDecision
      [("allow", Json.bool false)] exOverriddenDecision
      (by with_unfolding_all rfl) (by with_unfolding_all decide)⟩

theorem isJsonFalse_eq_false (v : Option Json)
    (h : v ≠ some (Json.bool false)) : isJsonFalse v = false := by
  cases hb : isJsonFalse v
  · rfl
  · exact absurd ((isJsonFalse_iff v).1 hb) h

theorem isJsonTrue_eq_false (v : Option Json)
    (h : v ≠ some (Json.bool true)) : isJsonTrue v = false := by
  cases hb : isJsonTrue v
  · rfl
  · exact absurd ((isJsonTrue_iff v).1 hb) h

/-- C2: the four-way resolution rule of `resolve_gate_action`, in source
order: explicit `allow: false` forces `demote`; else a usable `action`
string wins; else explicit `allow: true` passes the local action through;
else the tagged contract error.  The last conjunct is the claim's concrete
case `{"allow": false}` with local action `promote`. -/
theorem resolve_gate_action_spec (local_action : String) (g : JsonObj) :
    (jget g "allow" = some (Json.bool false) →
      resolve_gate_action local_action g = Except.ok "demote") ∧
    (jget g "allow" ≠ some (Json.bool false) →
      ∀ s, jget g "action" = some (Json.str s) →
        (s = "promote" ∨ s = "demote") →
        resolve_gate_action local_action g = Except.ok s) ∧
    (jget g "allow" ≠ some (Json.bool false) →
      usableGateAction (jget g "action") = none →
      jget g "allow" = some (Json.bool true) →
        resolve_gate_action local_action g = Except.ok local_action) ∧
    (jget g "allow" ≠ some (Json.bool false) →
      usableGateAction (jget g "action") = none →
      jget g "allow" ≠ some (Json.bool true) →
        resolve_gate_action local_action g =
          Except.error "policy_gate_missing_allow_or_action") ∧
    resolve_gate_action "promote" [("allow", Json.bool false)] =
      Except.ok "demote" := by
  refine ⟨?_, ?_, ?_, ?_, by with_unfolding_all rfl⟩
  · intro h
    simp [resolve_gate_action, (isJsonFalse_iff (jget g "allow")).2 h]
  · intro hne s hs hps
    have hu : usableGateAction (jget g "action") = some s := by
      rw [hs]
      rcases hps with h | h <;> subst h <;> simp [usableGateAction]
    simp [resolve_gate_action, isJsonFalse_eq_false _ hne, hu]
  · intro hne hu ht
    simp [resolve_gate_action, isJsonFalse_eq_false _ hne, hu,
      (isJsonTrue_iff (jget g "allow")).2 ht]
  · intro hne hu hnt
    simp [resolve_gate_action, isJsonFalse_eq_false _ hne, hu,
      isJsonTrue_eq_false _ hnt]

theorem resolve_gate_action_spec_witness :
    resolve_gate_action "promote" [] =
      Except.error "policy_gate_missing_allow_or_action" :=
  (resolve_gate_action_spec "promote" []).2.2.2.1 (by simp [jget])
    (by simp [jget, usableGateAction]) (by simp [jget])

theorem gateLoop_error_of_mem (oracle : Decision → Except String JsonObj)
    (ds : List Decision) (d : Decision) (hd : d ∈ ds)
    (hf : ∃ e, applyGate d (oracle d) = Except.error e) :
    ∃ e, gateLoop oracle ds = Except.error e := by
  induction ds with
  | nil => exact absurd hd (List.not_mem_nil d)
  | cons h t ih =>
    rcases List.mem_cons.1 hd with rfl | hmem
    · rcases hf with ⟨e, he⟩
      exact ⟨e, by simp [gateLoop, he]⟩
    · cases happ : applyGate h (oracle h) with
      | error e => exact ⟨e, by simp [gateLoop, happ]⟩
      | ok h' =>
        rcases ih hmem with ⟨e, he⟩
        exact ⟨e, by simp [gateLoop, happ, he]⟩

/-- C3: on a real run, a policy-gate failure for any decision — a raised
transport error (oracle `.error`, covering network failure, non-2xx status
and invalid JSON) or a malformed response such as `{}` — makes the run
exit with status 3; no `RunResult` is produced, so no move and no incident
write happens.  The second conjunct is the `{}` contract violation. -/
theorem real_run_gate_failure_aborts :
    (∀ (oracle : Decision → Except String JsonObj)
       (applied demoted incidentsDir logDir stamp : String) (mmr : ℚ)
       (ds : List Decision) (d : Decision), d ∈ ds →
       (∃ e, applyGate d (oracle d) = Except.error e) →
       runAfterEvaluation false oracle applied demoted incidentsDir logDir
         stamp mmr ds = Except.error 3) ∧
    (∀ d : Decision, applyGate d (Except.ok []) =
      Except.error "policy_gate_missing_allow_or_action") := by
  constructor
  · intro oracle applied demoted incidentsDir logDir stamp mmr ds d hd hf
    rcases gateLoop_error_of_mem oracle ds d hd hf with ⟨e, he⟩
    simp [runAfterEvaluation, he]
  · intro d
    rfl

theorem real_run_gate_failure_aborts_witness :
    runAfterEvaluation false (fun _ => Except.ok []) "promoted/applied"
      "tmp/archive/demoted" "memory/incidents" "tmp/export"
      "20260101-000000" 0 [exPromoteDecision] = Except.error 3 :=
  real_run_gate_failure_aborts.1 (fun _ => Except.ok []) "promoted/applied"
    "tmp/archive/demoted" "memory/incidents" "tmp/export" "20260101-000000"
    0 [exPromoteDecision] exPromoteDecision (by simp)
    ⟨"policy_gate_missing_allow_or_action",
      real_run_gate_failure_aborts.2 exPromoteDecision⟩

/-- C4: `parse_number` strips whitespace and `%` before `float()`
conversion; non-numeric text yields `none`; with normalization on, a `%`
in the original token divides by 100, else a value above `1.0` divides by
100, else the value passes through; with normalization off (the
`revenue_usdc`/`token_cost_usdc` mode) the converted value is returned
unchanged.  The closing conjuncts are the claim's concrete cases. -/
theorem parse_number_full_spec (val : String) :
    (pyFloat? (percentStripped val) = none →
      ∀ b, parse_number val b = none) ∧
    (∀ n, pyFloat? (percentStripped val) = some n →
      parse_number val false = some n ∧
      parse_number val true =
        some (if val.toList.contains '%' then n / 100
          else if n > 1 then n / 100 else n)) ∧
    parse_number "95%" true = some (19 / 20) ∧
    parse_number "70" true = some (7 / 10) ∧
    parse_number "0.5" true = some (1 / 2) ∧
    parse_number "abc" true = none := by
  refine ⟨?_, ?_, by with_unfolding_all decide, by with_unfolding_all decide,
    by with_unfolding_all decide, by with_unfolding_all decide⟩
  · intro h b
    simp [parse_number, h]
  · intro n h
    refine ⟨by simp [parse_number, h], ?_⟩
    simp only [parse_number, h]
    split_ifs <;> simp_all

theorem parse_number_full_spec_witness :
    pyFloat? (percentStripped "95%") = some 95 ∧
    parse_number "95%" false = some 95 ∧
    parse_number "95%" true =
      some (if ("95%".toList.contains '%') then (95 : ℚ) / 100
        else if (95 : ℚ) > 1 then 95 / 100 else 95) :=
  ⟨by with_unfolding_all decide,
   ((parse_number_full_spec "95%").2.1 95 (by with_unfolding_all decide)).1,
   ((parse_number_full_spec "95%").2.1 95 (by with_unfolding_all decide)).2⟩

theorem econBlock_reasons_mmr (cfg : Config) (kpi : Kpi) (m : ℚ) :
    (econBlock { cfg with min_margin_rate := m } kpi).reasons =
      (econBlock cfg kpi).reasons := by
  simp only [econBlock]
  split_ifs <;> rfl

theorem evaluate_reasons_def (cfg : Config) (name path : String) (age : ℚ)
    (pm : ParsedMeta) :
    (evaluate cfg name path age pm).reasons =
      (if age > cfg.sla_hours then [slaCode cfg.sla_hours] else []) ++
      (if cfg.nameRuleOk name then [] else ["prefix_rule_fail"]) ++
      (if pm.has_approval then [] else ["missing_approval_id"]) ++
      (if pm.has_approval_integrity then [] else ["approval_integrity_fail"]) ++
      (if pm.has_evidence then [] else ["missing_evidence"]) ++
      (if pm.has_eval then [] else ["missing_eval"]) ++
      (if pm.has_learn then [] else ["missing_learn"]) ++
      (if absentOrBelow pm.kpi.success_rate cfg.min_success then
        ["kpi_success_rate_fail"] else []) ++
      (if absentOrAbove pm.kpi.drift cfg.max_drift then
        ["kpi_drift_fail"] else []) ++
      (if absentOrBelow pm.kpi.reproducibility cfg.min_repro then
        ["kpi_reproducibility_fail"] else []) ++
      (econBlock cfg pm.kpi).reasons := rfl

/-- C5: the economics gate resolves absent revenue/token-cost to the
configured defaults; negative resolved values append the
`econ_invalid_negative_values` reason and leave the margin undefined; zero
revenue leaves the margin undefined without any reason; otherwise the
margin is `(revenue - token_cost) / revenue` and a margin below the
advisory minimum appends only the `kpi_margin_rate_fail` warning, which
can never change the action (the action is invariant in
`min_margin_rate`). -/
theorem economics_gate_spec (cfg : Config) (name path : String) (age : ℚ)
    (pm : ParsedMeta) :
    ((evaluate cfg name path age pm).kpi.revenue_usdc =
        pm.kpi.revenue_usdc.getD cfg.default_revenue_usdc ∧
      (evaluate cfg name path age pm).kpi.token_cost_usdc =
        pm.kpi.token_cost_usdc.getD cfg.default_token_cost_usdc) ∧
    (pm.kpi.revenue_usdc.getD cfg.default_revenue_usdc < 0 ∨
        pm.kpi.token_cost_usdc.getD cfg.default_token_cost_usdc < 0 →
      "econ_invalid_negative_values" ∈ (evaluate cfg name path age pm).reasons ∧
        (evaluate cfg name path age pm).kpi.margin_rate = none) ∧
    (¬(pm.kpi.revenue_usdc.getD cfg.default_revenue_usdc < 0 ∨
        pm.kpi.token_cost_usdc.getD cfg.default_token_cost_usdc < 0) →
      pm.kpi.revenue_usdc.getD cfg.default_revenue_usdc = 0 →
      (evaluate cfg name path age pm).kpi.margin_rate = none ∧
        (evaluate cfg name path age pm).warnings = []) ∧
    (¬(pm.kpi.revenue_usdc.getD cfg.default_revenue_usdc < 0 ∨
        pm.kpi.token_cost_usdc.getD cfg.default_token_cost_usdc < 0) →
      pm.kpi.revenue_usdc.getD cfg.default_revenue_usdc ≠ 0 →
      (evaluate cfg name path age pm).kpi.margin_rate =
        some ((pm.kpi.revenue_usdc.getD cfg.default_revenue_usdc -
            pm.kpi.token_cost_usdc.getD cfg.default_token_cost_usdc) /
          pm.kpi.revenue_usdc.getD cfg.default_revenue_usdc) ∧
      (evaluate cfg name path age pm).warnings =
        (if (pm.kpi.revenue_usdc.getD cfg.default_revenue_usdc -
              pm.kpi.token_cost_usdc.getD cfg.default_token_cost_usdc) /
            pm.kpi.revenue_usdc.getD cfg.default_revenue_usdc <
            cfg.min_margin_rate then ["kpi_margin_rate_fail"] else [])) ∧
    (∀ m : ℚ, (evaluate { cfg with min_margin_rate := m }
        name path age pm).action = (evaluate cfg name path age pm).action) := by
  have hkpi : (evaluate cfg name path age pm).kpi.revenue_usdc =
      (econBlock cfg pm.kpi).revenue ∧
      (evaluate cfg name path age pm).kpi.token_cost_usdc =
        (econBlock cfg pm.kpi).token_cost ∧
      (evaluate cfg name path age pm).kpi.margin_rate =
        (econBlock cfg pm.kpi).margin_rate ∧
      (evaluate cfg name path age pm).warnings =
        (econBlock cfg pm.kpi).warnings := ⟨rfl, rfl, rfl, rfl⟩
  obtain ⟨hrev, hcost, hmar, hwar⟩ := hkpi
  refine ⟨?_, ?_, ?_, ?_, ?_⟩
  · constructor
    · rw [hrev]; simp only [econBlock]; split_ifs <;> rfl
    · rw [hcost]; simp only [econBlock]; split_ifs <;> rfl
  · intro hneg
    have he : econBlock cfg pm.kpi =
        ⟨pm.kpi.revenue_usdc.getD cfg.default_revenue_usdc,
         pm.kpi.token_cost_usdc.getD cfg.default_token_cost_usdc,
         ["econ_invalid_negative_values"], [], none⟩ := by
      simp only [econBlock]
      rw [if_pos hneg]
    refine ⟨?_, by rw [hmar, he]⟩
    rw [evaluate_reasons_def, he]
    simp
  · intro hneg hzero
    have he : econBlock cfg pm.kpi =
        ⟨pm.kpi.revenue_usdc.getD cfg.default_revenue_usdc,
         pm.kpi.token_cost_usdc.getD cfg.default_token_cost_usdc,
         [], [], none⟩ := by
      simp only [econBlock]
      rw [if_neg hneg, if_pos hzero]
    exact ⟨by rw [hmar, he], by rw [hwar, he]⟩
  · intro hneg hnz
    have he : econBlock cfg pm.kpi =
        ⟨pm.kpi.revenue_usdc.getD cfg.default_revenue_usdc,
         pm.kpi.token_cost_usdc.getD cfg.default_token_cost_usdc,
         [],
         (if (pm.kpi.revenue_usdc.getD cfg.default_revenue_usdc -
               pm.kpi.token_cost_usdc.getD cfg.default_token_cost_usdc) /
             pm.kpi.revenue_usdc.getD cfg.default_revenue_usdc <
             cfg.min_margin_rate then ["kpi_margin_rate_fail"] else []),
         some ((pm.kpi.revenue_usdc.getD cfg.default_revenue_usdc -
             pm.kpi.token_cost_usdc.getD cfg.default_token_cost_usdc) /
           pm.kpi.revenue_usdc.getD cfg.default_revenue_usdc)⟩ := by
      simp only [econBlock]
      rw [if_neg hneg, if_neg hnz]
    exact ⟨by rw [hmar, he], by rw [hwar, he]⟩
  · intro m
    have hr : (evaluate { cfg with min_margin_rate := m }
        name path age pm).reasons = (evaluate cfg name path age pm).reasons := by
      rw [evaluate_reasons_def, evaluate_reasons_def, econBlock_reasons_mmr]
    rw [evaluate_action_def, evaluate_action_def, hr]

/-- The KPI-fail seeded sample's economics numbers: revenue 10,
token cost 8, as in the claim's concrete case. -/
def econExampleParsed : ParsedMeta :=
  { has_approval := true, has_approval_integrity := true,
    has_evidence := true, has_eval := true, has_learn := true,
    kpi := { success_rate := some (19 / 20), drift := some (3 / 100),
             reproducibility := some 1, revenue_usdc := some 10,
             token_cost_usdc := some 8 } }

/-- Advisory minimum 0.3, as in the claim's concrete case. -/
def econExampleConfig : Config :=
  { defaultConfig with min_margin_rate := 3 / 10 }

theorem economics_gate_spec_witness :
    (evaluate econExampleConfig "PRJ-E_v1.md" "promoted/inbox/PRJ-E_v1.md" 1
        econExampleParsed).kpi.margin_rate = some (1 / 5) ∧
    (evaluate econExampleConfig "PRJ-E_v1.md" "promoted/inbox/PRJ-E_v1.md" 1
        econExampleParsed).warnings = ["kpi_margin_rate_fail"] ∧
    (evaluate econExampleConfig "PRJ-E_v1.md" "promoted/inbox/PRJ-E_v1.md" 1
        econExampleParsed).action =
      (evaluate { econExampleConfig with min_margin_rate := 0 }
        "PRJ-E_v1.md" "promoted/inbox/PRJ-E_v1.md" 1 econExampleParsed).action := by
  have h := economics_gate_spec econExampleConfig "PRJ-E_v1.md"
    "promoted/inbox/PRJ-E_v1.md" 1 econExampleParsed
  have h4 := h.2.2.2.1 (by with_unfolding_all decide) (by with_unfolding_all decide)
  refine ⟨?_, ?_, ?_⟩
  · rw [h4.1]
    with_unfolding_all decide
  · rw [h4.2]
    with_unfolding_all decide
  · exact (h.2.2.2.2 0).symm

theorem parse_file_no_approval (text : String)
    (h : searchKeyVal "approval_id" false text = none ∨
      ∃ v, searchKeyVal "approval_id" false text = some v ∧
        pyLower (pyStrip v) ∈ ["none", "null", "na"]) :
    (parse_file text).has_approval = false ∧
    (parse_file text).has_approval_integrity = false := by
  have ha : (parse_file text).has_approval = false := by
    simp only [parse_file]
    rcases h with h | ⟨v, hv, hmem⟩
    · rw [h]
    · rw [hv]
      simp [hmem]
  refine ⟨ha, ?_⟩
  simp only [parse_file] at ha ⊢
  rw [ha]
  simp

/-- C6: every gate is evaluated (no short-circuit), so `reasons` is
exactly the ordered concatenation of the failing gates' codes: SLA, prefix
rule, approval, approval integrity, evidence, eval, learn, the three KPI
gates with their absent-or-out-of-range conditions, then the economics
reason.  A file whose `approval_id` is missing, or whose value lower-cases
to `none`/`null`/`na`, gets both `missing_approval_id` and
`approval_integrity_fail`. -/
theorem gates_fixed_order_all_evaluated :
    (∀ (cfg : Config) (name path : String) (age : ℚ) (pm : ParsedMeta),
      (evaluate cfg name path age pm).reasons =
        (if age > cfg.sla_hours then [slaCode cfg.sla_hours] else []) ++
        (if cfg.nameRuleOk name then [] else ["prefix_rule_fail"]) ++
        (if pm.has_approval then [] else ["missing_approval_id"]) ++
        (if pm.has_approval_integrity then [] else ["approval_integrity_fail"]) ++
        (if pm.has_evidence then [] else ["missing_evidence"]) ++
        (if pm.has_eval then [] else ["missing_eval"]) ++
        (if pm.has_learn then [] else ["missing_learn"]) ++
        (if absentOrBelow pm.kpi.success_rate cfg.min_success then
          ["kpi_success_rate_fail"] else []) ++
        (if absentOrAbove pm.kpi.drift cfg.max_drift then
          ["kpi_drift_fail"] else []) ++
        (if absentOrBelow pm.kpi.reproducibility cfg.min_repro then
          ["kpi_reproducibility_fail"] else []) ++
        (econBlock cfg pm.kpi).reasons) ∧
    (∀ (cfg : Config) (name path : String) (age : ℚ) (text : String),
      (searchKeyVal "approval_id" false text = none ∨
        ∃ v, searchKeyVal "approval_id" false text = some v ∧
          pyLower (pyStrip v) ∈ ["none", "null", "na"]) →
      "missing_approval_id" ∈
        (evaluate cfg name path age (parse_file text)).reasons ∧
      "approval_integrity_fail" ∈
        (evaluate cfg name path age (parse_file text)).reasons) := by
  refine ⟨fun cfg name path age pm => evaluate_reasons_def cfg name path age pm, ?_⟩
  intro cfg name path age text h
  obtain ⟨ha, hai⟩ := parse_file_no_approval text h
  rw [evaluate_reasons_def, ha, hai]
  constructor <;> simp

/-- A file with `approval_id: NA` — an approval value the code treats as absent. -/
def naApprovalText : String :=
  "# sample\napproval_id: NA\nEVIDENCE: exists\n"

theorem gates_fixed_order_all_evaluated_witness :
    "missing_approval_id" ∈
      (evaluate defaultConfig "PRJ-NA_v1.md" "promoted/inbox/PRJ-NA_v1.md" 1
        (parse_file naApprovalText)).reasons ∧
    "approval_integrity_fail" ∈
      (evaluate defaultConfig "PRJ-NA_v1.md" "promoted/inbox/PRJ-NA_v1.md" 1
        (parse_file naApprovalText)).reasons :=
  gates_fixed_order_all_evaluated.2 defaultConfig "PRJ-NA_v1.md"
    "promoted/inbox/PRJ-NA_v1.md" 1 naApprovalText
    (Or.inr ⟨"NA", by with_unfolding_all rfl, by with_unfolding_all decide⟩)

/-- C7: on a real run every decision with non-empty reasons gets an
incident record regardless of its final action (in particular a promotion
forced by a remote override), and the file is still moved to the applied
directory on `promote` and to the demoted directory on `demote`. -/
theorem flagged_incident_and_move (applied demoted incidentsDir stamp : String)
    (ds : List Decision) (d : Decision) (hd : d ∈ ds) :
    (d.reasons ≠ [] →
      incidentPath incidentsDir stamp d ∈
        (moveLoop false applied demoted incidentsDir stamp ds).2) ∧
    (d.action = "promote" →
      (d.file, applied ++ "/" ++ pathBaseName d.file) ∈
        (moveLoop false applied demoted incidentsDir stamp ds).1) ∧
    (d.action = "demote" →
      (d.file, demoted ++ "/" ++ pathBaseName d.file) ∈
        (moveLoop false applied demoted incidentsDir stamp ds).1) := by
  refine ⟨?_, ?_, ?_⟩
  · intro hr
    simp only [moveLoop, Bool.false_eq_true, if_false]
    exact List.mem_map_of_mem _ (List.mem_filter.2 ⟨hd, by simp [hr]⟩)
  · intro hp
    simp only [moveLoop, Bool.false_eq_true, if_false]
    have ht : targetOf applied demoted d = applied ++ "/" ++ pathBaseName d.file := by
      simp [targetOf, hp]
    exact ht ▸ List.mem_map_of_mem _ hd
  · intro hp
    simp only [moveLoop, Bool.false_eq_true, if_false]
    have ht : targetOf applied demoted d = demoted ++ "/" ++ pathBaseName d.file := by
      simp [targetOf, hp]
    exact ht ▸ List.mem_map_of_mem _ hd

/-- A decision whose local reasons were overridden into a promotion. -/
def overriddenPromotion : Decision :=
  { file := "promoted/inbox/PRJ-OVR_v1.md", action := "promote",
    reasons := ["missing_evidence"], warnings := ["policy_gate_action_override"],
    kpi := { success_rate := none, drift := none, reproducibility := none,
             revenue_usdc := 0, token_cost_usdc := 0, margin_rate := none },
    age_hours := 2 }

theorem flagged_incident_and_move_witness :
    overriddenPromotion.reasons ≠ [] ∧
    incidentPath "memory/incidents" "20260101-000000" overriddenPromotion ∈
      (moveLoop false "promoted/applied" "tmp/archive/demoted"
        "memory/incidents" "20260101-000000" [overriddenPromotion]).2 ∧
    (overriddenPromotion.file,
        "promoted/applied" ++ "/" ++ pathBaseName overriddenPromotion.file) ∈
      (moveLoop false "promoted/applied" "tmp/archive/demoted"
        "memory/incidents" "20260101-000000" [overriddenPromotion]).1 :=
  ⟨by with_unfolding_all decide,
   (flagged_incident_and_move "promoted/applied" "tmp/archive/demoted"
      "memory/incidents" "20260101-000000" [overriddenPromotion]
      overriddenPromotion (by simp)).1 (by with_unfolding_all decide),
   (flagged_incident_and_move "promoted/applied" "tmp/archive/demoted"
      "memory/incidents" "20260101-000000" [overriddenPromotion]
      overriddenPromotion (by simp)).2.1 (by with_unfolding_all decide)⟩

/-- A flagged decision used to exercise the dry-run executor. -/
def dryFlaggedDecision : Decision :=
  { file := "promoted/inbox/PRJ-A_v1.md", action := "demote",
    reasons := ["missing_evidence"], warnings := [],
    kpi := { success_rate := none, drift := none, reproducibility := none,
             revenue_usdc := 0, token_cost_usdc := 0, margin_rate := none },
    age_hours := 0 }

/-- The run result of the dry run over `[dryFlaggedDecision]`. -/
def dryRunResult : RunResult :=
  { moves := [], incidentsWritten := [],
    summary :=
      { dry_run := true,
        counts := { total := 1, promote := 0, demote := 1, warn := 0 },
        economics :=
          { total_revenue_usdc := 0, total_token_cost_usdc := 0,
            total_net_margin_usdc := 0, avg_margin_rate := none,
            min_margin_rate_advisory := 0 },
        margin_warning_count := 0, margin_warning_files := [],
        decisions := [dryFlaggedDecision] },
    logFile := "tmp/export/pipeline_manager_dryrun_20260101-000000.json" }

/-- C8, counterexample: in a dry run nothing is moved and no incident file
is written, and the decision is reported — but the would-be incident path
(`write_incident`'s return value, which `main` discards at line 340) does
not occur anywhere in the run output, against the claim that it is still
reported. -/
theorem dry_run_incident_path_not_reported :
    runAfterEvaluation true (fun _ => Except.ok []) "promoted/applied"
      "tmp/archive/demoted" "memory/incidents" "tmp/export"
      "20260101-000000" 0 [dryFlaggedDecision] = Except.ok dryRunResult ∧
    dryFlaggedDecision.reasons ≠ [] ∧
    dryRunResult.moves = [] ∧
    dryRunResult.incidentsWritten = [] ∧
    dryFlaggedDecision ∈ dryRunResult.summary.decisions ∧
    incidentPath "memory/incidents" "20260101-000000" dryFlaggedDecision ∉
      reportedStrings dryRunResult := by
  refine ⟨by with_unfolding_all rfl, by with_unfolding_all decide, rfl, rfl,
    by simp [dryRunResult], by with_unfolding_all decide⟩

/-- C8, amended: in dry-run mode no file is moved and no incident file is
written, and the decisions are still reported in the run summary; the
would-be incident path, however, is computed but discarded, not
reported. -/
theorem dry_run_no_effects_decisions_reported
    (oracle : Decision → Except String JsonObj)
    (applied demoted incidentsDir logDir stamp : String) (mmr : ℚ)
    (ds : List Decision) :
    (runAfterEvaluation true oracle applied demoted incidentsDir logDir stamp
        mmr ds).map (fun r => (r.moves, r.incidentsWritten, r.summary.decisions))
      = Except.ok ([], [], ds) := by
  simp [runAfterEvaluation, moveLoop, buildSummary, Except.map]

/-- C9, counterexample: the missing-confirm-flag exit (line 231) and the
missing-policy-gate-URL exit (line 238) use the same status 2, so the
three failure situations do not get three different codes. -/
theorem config_exit_codes_coincide :
    resolveRunMode true false "http://gate.example/policy" = Except.error 2 ∧
    resolveRunMode true true "" = Except.error 2 :=
  ⟨rfl, by with_unfolding_all rfl⟩

/-- C9, amended: `--real-run` without `--confirm-real-run` exits 2; a real
run with a blank policy-gate URL also exits 2; a policy-gate failure
mid-run exits 3.  The mid-run failure code differs from the configuration
code, but situations (a) and (b) share status 2. -/
theorem exit_codes_amended :
    (∀ url, resolveRunMode true false url = Except.error 2) ∧
    (∀ url, pyStrip url = "" → resolveRunMode true true url = Except.error 2) ∧
    (∀ (oracle : Decision → Except String JsonObj)
       (applied demoted incidentsDir logDir stamp : String) (mmr : ℚ)
       (ds : List Decision) (d : Decision), d ∈ ds →
       (∃ e, applyGate d (oracle d) = Except.error e) →
       runAfterEvaluation false oracle applied demoted incidentsDir logDir
         stamp mmr ds = Except.error 3) ∧
    (2 : ℕ) ≠ 3 := by
  refine ⟨fun url => rfl, ?_, ?_, by decide⟩
  · intro url h
    simp [resolveRunMode, h]
  · intro oracle applied demoted incidentsDir logDir stamp mmr ds d hd hf
    rcases gateLoop_error_of_mem oracle ds d hd hf with ⟨e, he⟩
    simp [runAfterEvaluation, he]

theorem exit_codes_amended_witness :
    resolveRunMode true false "http://gate.example/policy" = Except.error 2 ∧
    resolveRunMode true true "" = Except.error 2 ∧
    runAfterEvaluation false (fun _ => Except.ok []) "promoted/applied"
      "tmp/archive/demoted" "memory/incidents" "tmp/export"
      "20260101-000000" 0 [exPromoteDecision] = Except.error 3 :=
  ⟨exit_codes_amended.1 "http://gate.example/policy",
   exit_codes_amended.2.1 "" (by with_unfolding_all rfl),
   exit_codes_amended.2.2.1 (fun _ => Except.ok []) "promoted/applied"
     "tmp/archive/demoted" "memory/incidents" "tmp/export" "20260101-000000"
     0 [exPromoteDecision] exPromoteDecision (by simp)
     ⟨"policy_gate_missing_allow_or_action", rfl⟩⟩

theorem usableGateAction_two (v : Option Json) (s : String)
    (h : usableGateAction v = some s) : s = "promote" ∨ s = "demote" := by
  cases v with
  | none => exact Option.noConfusion h
  | some j =>
    cases j with
    | str s2 =>
      simp only [usableGateAction] at h
      by_cases h2 : (s2 = "promote" || s2 = "demote") = true
      · rw [if_pos h2] at h
        injection h with h3
        subst h3
        simpa using h2
      · rw [if_neg h2] at h
        exact Option.noConfusion h
    | null => exact Option.noConfusion h
    | bool b => exact Option.noConfusion h
    | num q => exact Option.noConfusion h
    | arr l => exact Option.noConfusion h
    | obj l => exact Option.noConfusion h

theorem resolve_ok_cases (l : String) (g : JsonObj) (a : String)
    (h : resolve_gate_action l g = Except.ok a) :
    a = "promote" ∨ a = "demote" ∨ a = l := by
  by_cases h1 : isJsonFalse (jget g "allow") = true
  · rw [resolve_gate_action, if_pos h1] at h
    injection h with h2
    exact Or.inr (Or.inl h2.symm)
  · rw [resolve_gate_action, if_neg h1] at h
    cases hu : usableGateAction (jget g "action") with
    | some ga =>
      rw [hu] at h
      injection h with h2
      subst h2
      rcases usableGateAction_two _ _ hu with h3 | h3
      · exact Or.inl h3
      · exact Or.inr (Or.inl h3)
    | none =>
      rw [hu] at h
      by_cases h2 : isJsonTrue (jget g "allow") = true
      · rw [if_pos h2] at h
        injection h with h3
        exact Or.inr (Or.inr h3.symm)
      · rw [if_neg h2] at h
        exact Except.noConfusion h

theorem applyGate_ok_action (d : Decision) (g : JsonObj) (d' : Decision)
    (h : applyGate d (Except.ok g) = Except.ok d') :
    ∃ a, resolve_gate_action d.action g = Except.ok a ∧ d'.action = a := by
  have h2 : (match resolve_gate_action d.action g with
      | Except.error e => (Except.error e : Except String Decision)
      | Except.ok gated_action =>
        if gated_action ≠ d.action then
          Except.ok { d with
            warnings := d.warnings ++ ["policy_gate_action_override"],
            action := gated_action }
        else Except.ok d) = Except.ok d' := h
  cases hres : resolve_gate_action d.action g with
  | error e =>
    rw [hres] at h2
    exact Except.noConfusion h2
  | ok a =>
    rw [hres] at h2
    simp only [ne_eq] at h2
    refine ⟨a, rfl, ?_⟩
    by_cases ha : a = d.action
    · rw [if_neg (not_not_intro ha)] at h2
      injection h2 with h3
      subst h3
      exact ha.symm
    · rw [if_pos ha] at h2
      injection h2 with h3
      subst h3
      rfl

theorem applyGate_action_two (d : Decision) (g : JsonObj) (d' : Decision)
    (h : applyGate d (Except.ok g) = Except.ok d')
    (hd : d.action = "promote" ∨ d.action = "demote") :
    d'.action = "promote" ∨ d'.action = "demote" := by
  rcases applyGate_ok_action d g d' h with ⟨a, hres, hact⟩
  rcases resolve_ok_cases d.action g a hres with h1 | h1 | h1
  · exact Or.inl (hact.trans h1)
  · exact Or.inr (hact.trans h1)
  · rw [hact, h1]
    exact hd

theorem gateLoop_actions_two (oracle : Decision → Except String JsonObj)
    (ds ds' : List Decision) (h : gateLoop oracle ds = Except.ok ds')
    (hall : ∀ d ∈ ds, d.action = "promote" ∨ d.action = "demote") :
    ∀ d' ∈ ds', d'.action = "promote" ∨ d'.action = "demote" := by
  induction ds generalizing ds' with
  | nil =>
    have h2 : (Except.ok [] : Except String (List Decision)) = Except.ok ds' := h
    injection h2 with h3
    subst h3
    intro d' hd'
    exact absurd hd' (List.not_mem_nil d')
  | cons x t ih =>
    have h2 : (match applyGate x (oracle x) with
        | Except.error e => (Except.error e : Except String (List Decision))
        | Except.ok x' =>
          match gateLoop oracle t with
          | Except.error e => Except.error e
          | Except.ok t' => Except.ok (x' :: t')) = Except.ok ds' := h
    cases happ : applyGate x (oracle x) with
    | error e =>
      rw [happ] at h2
      exact Except.noConfusion h2
    | ok x' =>
      rw [happ] at h2
      cases hloop : gateLoop oracle t with
      | error e =>
        rw [hloop] at h2
        exact Except.noConfusion h2
      | ok t' =>
        rw [hloop] at h2
        injection h2 with h3
        subst h3
        intro d' hd'
        rcases List.mem_cons.1 hd' with rfl | hm
        · cases horacle : oracle x with
          | error e =>
            rw [horacle] at happ
            exact Except.noConfusion happ
          | ok g =>
            rw [horacle] at happ
            exact applyGate_action_two x g d' happ (hall x (List.mem_cons_self x t))
        · exact ih t' hloop (fun d hd => hall d (List.mem_cons_of_mem x hd)) d' hm

theorem evaluate_action_two (cfg : Config) (name path : String) (age : ℚ)
    (pm : ParsedMeta) :
    (evaluate cfg name path age pm).action = "promote" ∨
      (evaluate cfg name path age pm).action = "demote" := by
  rw [evaluate_action_def]
  by_cases h : (evaluate cfg name path age pm).reasons = [] <;> simp [h]

theorem length_eq_promote_add_demote (ds : List Decision)
    (h : ∀ d ∈ ds, d.action = "promote" ∨ d.action = "demote") :
    ds.length = (ds.countP fun d => d.action = "promote") +
      (ds.countP fun d => d.action = "demote") := by
  induction ds with
  | nil => simp
  | cons x t ih =>
    have hx := h x (List.mem_cons_self x t)
    have ht := ih fun d hd => h d (List.mem_cons_of_mem x hd)
    rcases hx with hx | hx <;>
      simp [List.countP_cons, hx, ht] <;> omega

theorem runAfterEvaluation_ok_summary (dry_run : Bool)
    (oracle : Decision → Except String JsonObj)
    (applied demoted incidentsDir logDir stamp : String) (mmr : ℚ)
    (ds : List Decision) (r : RunResult)
    (h : runAfterEvaluation dry_run oracle applied demoted incidentsDir
      logDir stamp mmr ds = Except.ok r) :
    ∃ ds', r.summary = buildSummary dry_run mmr ds' ∧
      (ds' = ds ∨ gateLoop oracle ds = Except.ok ds') := by
  cases dry_run with
  | true =>
    have h2 : Except.ok (RunResult.mk
        (moveLoop true applied demoted incidentsDir stamp ds).1
        (moveLoop true applied demoted incidentsDir stamp ds).2
        (buildSummary true mmr ds)
        (logDir ++ "/pipeline_manager_" ++ "dryrun" ++ "_" ++ stamp ++ ".json"))
        = Except.ok r := h
    injection h2 with h3
    subst h3
    exact ⟨ds, rfl, Or.inl rfl⟩
  | false =>
    have h2 : (match gateLoop oracle ds with
        | Except.error _ => (Except.error 3 : Except ℕ RunResult)
        | Except.ok ds' => Except.ok (RunResult.mk
            (moveLoop false applied demoted incidentsDir stamp ds').1
            (moveLoop false applied demoted incidentsDir stamp ds').2
            (buildSummary false mmr ds')
            (logDir ++ "/pipeline_manager_" ++ "run" ++ "_" ++ stamp ++ ".json")))
        = Except.ok r := h
    cases hloop : gateLoop oracle ds with
    | error e =>
      rw [hloop] at h2
      exact Except.noConfusion h2
    | ok ds' =>
      rw [hloop] at h2
      injection h2 with h3
      subst h3
      exact ⟨ds', rfl, Or.inr rfl⟩

/-- C10: every decision that reaches the executor — locally evaluated, and
possibly rewritten by `resolve_gate_action`, whose only outputs are
`promote`, `demote` or the local action — has action `promote` or
`demote`, never `hold`; hence the summary's total count is the promote
count plus the demote count. -/
theorem final_actions_two_valued_counts_add_up (cfg : Config)
    (dry_run : Bool) (oracle : Decision → Except String JsonObj)
    (inboxDir applied demoted incidentsDir logDir stamp : String)
    (files : List InboxFile) (r : RunResult)
    (h : runPipeline cfg dry_run oracle inboxDir applied demoted incidentsDir
      logDir stamp files = Except.ok r) :
    (∀ d ∈ r.summary.decisions,
      d.action = "promote" ∨ d.action = "demote") ∧
    r.summary.counts.total =
      r.summary.counts.promote + r.summary.counts.demote := by
  have hall0 : ∀ d ∈ evaluateAll cfg inboxDir files,
      d.action = "promote" ∨ d.action = "demote" := by
    intro d hd
    rcases List.mem_map.1 hd with ⟨f, _, rfl⟩
    exact evaluate_action_two cfg f.name (inboxDir ++ "/" ++ f.name)
      f.age_hours (parse_file f.text)
  rcases runAfterEvaluation_ok_summary dry_run oracle applied demoted
    incidentsDir logDir stamp cfg.min_margin_rate
    (evaluateAll cfg inboxDir files) r h with ⟨ds', hsum, hcase⟩
  have hall : ∀ d ∈ ds', d.action = "promote" ∨ d.action = "demote" := by
    rcases hcase with rfl | hloop
    · exact hall0
    · exact gateLoop_actions_two oracle _ ds' hloop hall0
  constructor
  · rw [hsum]
    exact hall
  · rw [hsum]
    simpa [buildSummary] using length_eq_promote_add_demote ds' hall

/-- One dry run over the seeded PASS sample. -/
def c10files : List InboxFile :=
  [{ name := "PRJ-PIPELINE-PASS_v1.md", age_hours := 1,
     text := passSampleText }]

/-- Its run result (dry run: no moves, no incidents). -/
def c10result : RunResult :=
  { moves := [], incidentsWritten := [],
    summary := buildSummary true defaultConfig.min_margin_rate
      (evaluateAll defaultConfig "promoted/inbox" c10files),
    logFile := "tmp/export/pipeline_manager_dryrun_20260101-000000.json" }

theorem final_actions_two_valued_counts_add_up_witness :
    (∀ d ∈ c10result.summary.decisions,
      d.action = "promote" ∨ d.action = "demote") ∧
    c10result.summary.counts.total =
      c10result.summary.counts.promote + c10result.summary.counts.demote :=
  final_actions_two_valued_counts_add_up defaultConfig true
    (fun _ => Except.ok []) "promoted/inbox" "promoted/applied"
    "tmp/archive/demoted" "memory/incidents" "tmp/export" "20260101-000000"
    c10files c10result (by with_unfolding_all rfl)

end PipelineManager
